import Mathlib

/-!
Shallow embedding of `range_booking_automation.py` (RangeBookingAutomation):
a scheduling and approval system for shared range resources with conflict
checking, role-based authorization and an append-only audit log.

Modelling conventions:
* `datetime` values are modelled as integers (`Int`); only their total order
  is used by the program.  Their textual renderings (`str(...)` /
  `.isoformat()`) are modelled by the injective decimal rendering `timeStr`.
* Python object mutation is modelled by explicit state passing: the system
  state is a `SystemState` record holding the booking collection and the
  audit log, and each workflow operation returns the updated state.  The
  target booking of an operation (a Python object reference into
  `self.bookings`) is identified by its position `i` in the collection.
* `uuid` generation and `datetime.now()` are modelled by explicit
  parameters (`entryId`, `now`) supplied by the caller.
* Python exceptions (`PermissionError`, `ValueError`) are modelled by
  `Except SchedulingError`; the Python code raises them before any
  mutation, and correspondingly an `error` result carries no state.
* Python's `repr` of a list of id strings (used in audit details) is
  modelled by `pyListRepr`.
-/

namespace RangeBooking

/-- Status of a booking request (`BookingStatus` enum). -/
inductive BookingStatus where
  | pending
  | approved
  | denied
  | cancelled
  | bumped
deriving DecidableEq, Inhabited

/-- The `.value` string of each `BookingStatus` member. -/
def BookingStatus.value : BookingStatus → String
  | .pending => "pending"
  | .approved => "approved"
  | .denied => "denied"
  | .cancelled => "cancelled"
  | .bumped => "bumped"

/-- User roles in the system (`UserRole` enum). -/
inductive UserRole where
  | staff
  | user
  | admin
deriving DecidableEq, Inhabited

/-- Types of actions in the system (`ActionType` enum). -/
inductive ActionType where
  | create
  | approve
  | deny
  | reschedule
  | override
  | bump
  | cancel
deriving DecidableEq, Inhabited

/-- A user in the system (`User` dataclass). -/
structure User where
  id : String
  name : String
  role : UserRole
deriving DecidableEq, Inhabited

/-- A shared resource (`Resource` dataclass). -/
structure Resource where
  id : String
  name : String
  resourceType : String
  capacity : Int
deriving DecidableEq, Inhabited

/-- A booking request (`Booking` dataclass).  Construction-time interval
validation (`end_time > start_time`) is enforced at the call sites that
construct bookings (`createBookingRequest`), mirroring `__post_init__`. -/
structure Booking where
  id : String
  resource : Resource
  requester : User
  startTime : Int
  endTime : Int
  status : BookingStatus
  purpose : String
  priority : Int
  createdAt : Int
deriving DecidableEq, Inhabited

/-- Model of the textual rendering of a `datetime` (`str` / `isoformat`):
any injective rendering is faithful for the properties at stake; we use the
decimal rendering of the integer time. -/
def timeStr (t : Int) : String := toString t

/-- Model of Python's `repr` for one id string (single-quoted). -/
def pyRepr (s : String) : String := "\x27" ++ s ++ "\x27"

/-- Model of Python's `repr` of a list of id strings, as interpolated into
audit `details` messages by f-strings. -/
def pyListRepr (xs : List String) : String :=
  "[" ++ String.intercalate ", " (xs.map pyRepr) ++ "]"

/-- An audit log entry (`AuditLogEntry` dataclass).  The `previous_state`
dict is modelled as an association list of string keys and string values,
in insertion order. -/
structure AuditLogEntry where
  id : String
  timestamp : Int
  action : ActionType
  actor : User
  booking : Booking
  details : String
  previousState : Option (List (String × String))
deriving DecidableEq, Inhabited

/-- Errors raised by the workflow operations: `PermissionError` and
`ValueError` in the Python source, named as in the specification. -/
inductive SchedulingError where
  | permissionDenied (msg : String)
  | invalidInterval (msg : String)
deriving DecidableEq

/-- The mutable state of a `RangeBookingAutomation` instance that the
workflow operations touch: the booking collection and the audit log.
(The resource and user registries are never read or written by the
operations modelled here.) -/
structure SystemState where
  bookings : List Booking
  auditLog : List AuditLogEntry
deriving DecidableEq, Inhabited

/-- The booking at position `i` of the collection (the Python object
reference passed to a workflow operation). -/
def SystemState.bookingAt (s : SystemState) (i : Nat) : Booking :=
  s.bookings.getD i default

/-- Model of `Booking.overlaps_with`: same resource and half-open interval overlap. -/
def Booking.overlapsWith (self other : Booking) : Prop :=
  self.resource.id = other.resource.id ∧
  self.startTime < other.endTime ∧
  self.endTime > other.startTime

instance (a b : Booking) : Decidable (a.overlapsWith b) := by
  unfold Booking.overlapsWith; infer_instance

/-- Model of `RangeBookingAutomation._is_staff_or_admin`. -/
def isStaffOrAdmin (user : User) : Prop :=
  user.role = UserRole.staff ∨ user.role = UserRole.admin

instance (u : User) : Decidable (isStaffOrAdmin u) := by
  unfold isStaffOrAdmin; infer_instance

/-- Model of `RangeBookingAutomation.check_conflicts`: all bookings in the
collection, in insertion order, other than the candidate (by id), with
status APPROVED, overlapping the candidate. -/
def checkConflicts (s : SystemState) (booking : Booking) : List Booking :=
  s.bookings.filter fun existing =>
    decide (existing.id ≠ booking.id ∧
            existing.status = BookingStatus.approved ∧
            booking.overlapsWith existing)

/-- Model of `RangeBookingAutomation._add_audit_log`: append one entry. -/
def addAuditLog (s : SystemState) (action : ActionType) (actor : User)
    (booking : Booking) (details : String)
    (previousState : Option (List (String × String)))
    (entryId : String) (now : Int) : SystemState :=
  { s with auditLog := s.auditLog ++
      [{ id := entryId, timestamp := now, action := action, actor := actor,
         booking := booking, details := details,
         previousState := previousState }] }

/-- Model of `RangeBookingAutomation.create_booking_request`: construct a PENDING
booking (rejecting an invalid interval, as `Booking.__post_init__` does),
append it to the collection and log a CREATE entry. -/
def createBookingRequest (s : SystemState) (resource : Resource)
    (requester : User) (startTime endTime : Int) (purpose : String)
    (priority : Int) (newId entryId : String) (now : Int) :
    Except SchedulingError (SystemState × Booking) :=
  if endTime ≤ startTime then
    .error (.invalidInterval "End time must be after start time")
  else
    let booking : Booking :=
      { id := newId, resource := resource, requester := requester,
        startTime := startTime, endTime := endTime,
        status := BookingStatus.pending, purpose := purpose,
        priority := priority, createdAt := now }
    let s1 : SystemState := { s with bookings := s.bookings ++ [booking] }
    .ok (addAuditLog s1 ActionType.create requester booking
          ("Booking request created for " ++ resource.name) none entryId now,
         booking)

/-- Model of `RangeBookingAutomation.approve_booking` on the booking at position
`i`. -/
def approveBooking (s : SystemState) (i : Nat) (approver : User)
    (forceOverride : Bool) (entryId : String) (now : Int) :
    Except SchedulingError (SystemState × Bool) :=
  if ¬ isStaffOrAdmin approver then
    .error (.permissionDenied "Only staff or admin can approve bookings")
  else
    let booking := s.bookingAt i
    let conflicts := checkConflicts s booking
    if conflicts ≠ [] ∧ forceOverride = false then
      let details := "Cannot approve due to conflicts with bookings: " ++
        pyListRepr (conflicts.map fun c => c.id)
      .ok (addAuditLog s ActionType.approve approver booking details none
            entryId now, false)
    else
      let previousState := [("status", booking.status.value)]
      let newBooking := { booking with status := BookingStatus.approved }
      let s1 : SystemState := { s with bookings := s.bookings.set i newBooking }
      if forceOverride = true ∧ conflicts ≠ [] then
        let details := "Booking approved with override (conflicts: " ++
          pyListRepr (conflicts.map fun c => c.id) ++ ")"
        .ok (addAuditLog s1 ActionType.override approver newBooking details
              (some previousState) entryId now, true)
      else
        .ok (addAuditLog s1 ActionType.approve approver newBooking
              "Booking approved" (some previousState) entryId now, true)

/-- Model of `RangeBookingAutomation.deny_booking` on the booking at position `i`. -/
def denyBooking (s : SystemState) (i : Nat) (denier : User) (reason : String)
    (entryId : String) (now : Int) : Except SchedulingError SystemState :=
  if ¬ isStaffOrAdmin denier then
    .error (.permissionDenied "Only staff or admin can deny bookings")
  else
    let booking := s.bookingAt i
    let previousState := [("status", booking.status.value)]
    let newBooking := { booking with status := BookingStatus.denied }
    let s1 : SystemState := { s with bookings := s.bookings.set i newBooking }
    .ok (addAuditLog s1 ActionType.deny denier newBooking
          ("Booking denied. Reason: " ++ reason) (some previousState)
          entryId now)

/-- Model of `RangeBookingAutomation.reschedule_booking` on the booking at position
`i`: speculative in-place update of the times, conflict check, revert on
blocked conflict, otherwise keep the new times and force APPROVED. -/
def rescheduleBooking (s : SystemState) (i : Nat) (rescheduler : User)
    (newStartTime newEndTime : Int) (forceOverride : Bool)
    (entryId : String) (now : Int) :
    Except SchedulingError (SystemState × Bool) :=
  if ¬ isStaffOrAdmin rescheduler then
    .error (.permissionDenied "Only staff or admin can reschedule bookings")
  else if newEndTime ≤ newStartTime then
    .error (.invalidInterval "End time must be after start time")
  else
    let booking := s.bookingAt i
    let previousState :=
      [("start_time", timeStr booking.startTime),
       ("end_time", timeStr booking.endTime),
       ("status", booking.status.value)]
    let oldStart := booking.startTime
    let tempBooking := { booking with startTime := newStartTime,
                                      endTime := newEndTime }
    let s1 : SystemState := { s with bookings := s.bookings.set i tempBooking }
    let conflicts := checkConflicts s1 tempBooking
    if conflicts ≠ [] ∧ forceOverride = false then
      let s2 : SystemState := { s1 with bookings := s1.bookings.set i booking }
      let details := "Cannot reschedule due to conflicts with bookings: " ++
        pyListRepr (conflicts.map fun c => c.id)
      .ok (addAuditLog s2 ActionType.reschedule rescheduler booking details
            none entryId now, false)
    else
      let newBooking := { tempBooking with status := BookingStatus.approved }
      let s2 : SystemState := { s1 with bookings := s1.bookings.set i newBooking }
      let details0 := "Booking rescheduled from " ++ timeStr oldStart ++
        " to " ++ timeStr newStartTime
      let details :=
        if forceOverride = true ∧ conflicts ≠ [] then
          details0 ++ " (overriding conflicts: " ++
            pyListRepr (conflicts.map fun c => c.id) ++ ")"
        else details0
      .ok (addAuditLog s2 ActionType.reschedule rescheduler newBooking details
            (some previousState) entryId now, true)

/-- Model of `RangeBookingAutomation.bump_booking` on the booking at position `i`. -/
def bumpBooking (s : SystemState) (i : Nat) (bumper : User)
    (higherPriorityBooking : Booking) (reason : String)
    (entryId : String) (now : Int) : Except SchedulingError SystemState :=
  if ¬ isStaffOrAdmin bumper then
    .error (.permissionDenied "Only staff or admin can bump bookings")
  else
    let booking := s.bookingAt i
    let previousState := [("status", booking.status.value)]
    let newBooking := { booking with status := BookingStatus.bumped }
    let s1 : SystemState := { s with bookings := s.bookings.set i newBooking }
    let details := "Booking bumped for higher priority booking " ++
      higherPriorityBooking.id ++ ". Reason: " ++ reason
    .ok (addAuditLog s1 ActionType.bump bumper newBooking details
          (some previousState) entryId now)

/-- Model of `RangeBookingAutomation.cancel_booking` on the booking at position `i`:
allowed for the requester (by id) or staff/admin. -/
def cancelBooking (s : SystemState) (i : Nat) (canceller : User)
    (reason : String) (entryId : String) (now : Int) :
    Except SchedulingError SystemState :=
  let booking := s.bookingAt i
  if booking.requester.id ≠ canceller.id ∧ ¬ isStaffOrAdmin canceller then
    .error (.permissionDenied "Only the requester or staff can cancel a booking")
  else
    let previousState := [("status", booking.status.value)]
    let newBooking := { booking with status := BookingStatus.cancelled }
    let s1 : SystemState := { s with bookings := s.bookings.set i newBooking }
    .ok (addAuditLog s1 ActionType.cancel canceller newBooking
          ("Booking cancelled. Reason: " ++ reason) (some previousState)
          entryId now)

/-- Comparison by start time, the key of the sort in
`get_bookings_by_resource` (`sorted(bookings, key=lambda b: b.start_time)`). -/
def bookingStartLE (a b : Booking) : Prop := a.startTime ≤ b.startTime

instance : DecidableRel bookingStartLE := fun a b => by
  unfold bookingStartLE; infer_instance

instance : IsTotal Booking bookingStartLE :=
  ⟨fun a b => Int.le_total a.startTime b.startTime⟩

instance : IsTrans Booking bookingStartLE :=
  ⟨fun _ _ _ hab hbc => le_trans hab hbc⟩

/-- Model of `RangeBookingAutomation.get_bookings_by_resource`: filter by resource
id, optional loose window bounds and optional status; sort ascending by
start time.  Python's `sorted` is a stable sort; a stable sort under a
total preorder is unique as a function, so it is modelled by the (stable)
insertion sort. -/
def getBookingsByResource (s : SystemState) (resourceId : String)
    (startDate endDate : Option Int) (status : Option BookingStatus) :
    List Booking :=
  let bs0 := s.bookings.filter fun b => decide (b.resource.id = resourceId)
  let bs1 := match startDate with
    | none => bs0
    | some d => bs0.filter fun b => decide (d ≤ b.endTime)
  let bs2 := match endDate with
    | none => bs1
    | some d => bs1.filter fun b => decide (b.startTime ≤ d)
  let bs3 := match status with
    | none => bs2
    | some st => bs2.filter fun b => decide (b.status = st)
  List.insertionSort bookingStartLE bs3

/-! ### Helper lemmas about list update -/

/-- Setting position `j` leaves every other position unchanged. -/
theorem getD_set_ne {α : Type} {l : List α} {i j : Nat} (h : i ≠ j)
    (a d : α) : (l.set i a).getD j d = l.getD j d := by
  simp [List.getD_eq_getElem?_getD, List.getElem?_set_ne h]

/-- Setting an in-range position stores exactly the written value. -/
theorem getD_set_self {α : Type} {l : List α} {i : Nat}
    (h : i < l.length) (a d : α) : (l.set i a).getD i d = a := by
  simp [List.getD_eq_getElem?_getD, List.getElem?_set_self, h]

/-- Writing back the value read at a position is the identity. -/
theorem set_getD_self {α : Type} (l : List α) (i : Nat) (d : α) :
    l.set i (l.getD i d) = l := by
  induction l generalizing i with
  | nil => rfl
  | cons a t ih =>
    cases i with
    | zero => simp
    | succ n =>
      show a :: t.set n (t.getD n d) = a :: t
      rw [ih]

/-! ### Concrete fixtures used by counterexamples and witnesses -/

/-- A registered bay resource. -/
def cRes : Resource := { id := "r1", name := "Bay 1", resourceType := "bay", capacity := 1 }

/-- A staff member. -/
def cStaff : User := { id := "u1", name := "Sam", role := UserRole.staff }

/-- An ordinary (non-staff) user. -/
def cAlice : User := { id := "u2", name := "Alice", role := UserRole.user }

/-- A second ordinary user. -/
def cBob : User := { id := "u3", name := "Bob", role := UserRole.user }

/-- A booking that has been denied. -/
def cBookingDenied : Booking :=
  { id := "b1", resource := cRes, requester := cAlice, startTime := 0,
    endTime := 10, status := BookingStatus.denied, purpose := "",
    priority := 0, createdAt := 0 }

/-- A state holding one denied booking and an empty audit log. -/
def cStateDenied : SystemState := { bookings := [cBookingDenied], auditLog := [] }

/-- A pending booking on interval [0, 10). -/
def cPend : Booking :=
  { id := "b1", resource := cRes, requester := cAlice, startTime := 0,
    endTime := 10, status := BookingStatus.pending, purpose := "",
    priority := 0, createdAt := 0 }

/-- A state holding one pending booking. -/
def cStatePending : SystemState := { bookings := [cPend], auditLog := [] }

/-- An approved booking on interval [5, 15), overlapping `cPend`. -/
def cAppr : Booking :=
  { id := "b2", resource := cRes, requester := cBob, startTime := 5,
    endTime := 15, status := BookingStatus.approved, purpose := "",
    priority := 0, createdAt := 0 }

/-- A state where the pending booking at position 0 overlaps the approved
booking at position 1 on the same resource. -/
def cOverlapState : SystemState := { bookings := [cPend, cAppr], auditLog := [] }

/-- A pending booking ending exactly at time 10. -/
def cEndsAt10 : Booking :=
  { id := "b4", resource := cRes, requester := cAlice, startTime := 0,
    endTime := 10, status := BookingStatus.pending, purpose := "",
    priority := 0, createdAt := 0 }

/-- An approved booking starting exactly at time 10, back-to-back with
`cEndsAt10` on the same resource. -/
def cStartsAt10 : Booking :=
  { id := "b5", resource := cRes, requester := cBob, startTime := 10,
    endTime := 20, status := BookingStatus.approved, purpose := "",
    priority := 0, createdAt := 0 }

/-- A state holding the two back-to-back bookings. -/
def cStateB2B : SystemState := { bookings := [cEndsAt10, cStartsAt10], auditLog := [] }

/-! ### C6 -/

/-- C6: `check_conflicts(candidate)` returns exactly the bookings in the
collection, in insertion order, whose id differs from the candidate's,
whose resource id equals the candidate's, whose status is APPROVED, and
which overlap the candidate under the half-open relation
`candidate.start < other.end AND candidate.end > other.start`; a booking
ending exactly at time T never conflicts with a booking starting at T, and
the candidate never conflicts with itself. -/
theorem c6_check_conflicts_characterisation (s : SystemState) (b : Booking) :
    checkConflicts s b =
      s.bookings.filter (fun e =>
        decide (e.id ≠ b.id ∧ e.resource.id = b.resource.id ∧
                e.status = BookingStatus.approved ∧
                b.startTime < e.endTime ∧ b.endTime > e.startTime)) ∧
    (∀ other : Booking, b.endTime = other.startTime →
      other ∉ checkConflicts s b) ∧
    b ∉ checkConflicts s b := by
  refine ⟨?_, ?_, ?_⟩
  · apply List.filter_congr
    intro e _
    simp only [decide_eq_decide, Booking.overlapsWith]
    constructor
    · rintro ⟨h1, h2, h3, h4, h5⟩
      exact ⟨h1, h3.symm, h2, h4, h5⟩
    · rintro ⟨h1, h2, h3, h4, h5⟩
      exact ⟨h1, h3, h2.symm, h4, h5⟩
  · intro other h hmem
    unfold checkConflicts at hmem
    rw [List.mem_filter] at hmem
    have h2 := of_decide_eq_true hmem.2
    rcases h2 with ⟨_, _, _, _, hgt⟩
    omega
  · intro hmem
    unfold checkConflicts at hmem
    rw [List.mem_filter] at hmem
    have h2 := of_decide_eq_true hmem.2
    exact h2.1 rfl

/-- Witness for C6: the back-to-back approved booking starting at time 10
is not a conflict for the candidate ending at time 10. -/
theorem c6_witness : cStartsAt10 ∉ checkConflicts cStateB2B cEndsAt10 :=
  (c6_check_conflicts_characterisation cStateB2B cEndsAt10).2.1 cStartsAt10 rfl

/-! ### C7 -/

/-- C7: hard failures are atomic and unlogged.  An unauthorized actor makes
approve/deny/reschedule/bump fail with `PermissionDenied`; a canceller who
is neither the requester nor staff/admin makes cancel fail with
`PermissionDenied`; an interval with end ≤ start makes create/reschedule
fail with `InvalidInterval`.  In every such case the operation returns an
`error` carrying no state: the Python code raises before any mutation or
audit append, and correspondingly the model's state is untouched. -/
theorem c7_hard_failures_atomic (s : SystemState) (i : Nat) (u : User)
    (res : Resource) (ns ne : Int) (fo : Bool) (p : String) (pr : Int)
    (hp : Booking) (reason nid eid : String) (now : Int) :
    (¬ isStaffOrAdmin u →
      approveBooking s i u fo eid now =
        .error (.permissionDenied "Only staff or admin can approve bookings")) ∧
    (¬ isStaffOrAdmin u →
      denyBooking s i u reason eid now =
        .error (.permissionDenied "Only staff or admin can deny bookings")) ∧
    (¬ isStaffOrAdmin u →
      rescheduleBooking s i u ns ne fo eid now =
        .error (.permissionDenied "Only staff or admin can reschedule bookings")) ∧
    (¬ isStaffOrAdmin u →
      bumpBooking s i u hp reason eid now =
        .error (.permissionDenied "Only staff or admin can bump bookings")) ∧
    ((s.bookingAt i).requester.id ≠ u.id ∧ ¬ isStaffOrAdmin u →
      cancelBooking s i u reason eid now =
        .error (.permissionDenied "Only the requester or staff can cancel a booking")) ∧
    (ne ≤ ns →
      createBookingRequest s res u ns ne p pr nid eid now =
        .error (.invalidInterval "End time must be after start time")) ∧
    (isStaffOrAdmin u → ne ≤ ns →
      rescheduleBooking s i u ns ne fo eid now =
        .error (.invalidInterval "End time must be after start time")) := by
  refine ⟨?_, ?_, ?_, ?_, ?_, ?_, ?_⟩
  · intro h; simp [approveBooking, h]
  · intro h; simp [denyBooking, h]
  · intro h; simp [rescheduleBooking, h]
  · intro h; simp [bumpBooking, h]
  · intro h; simp [cancelBooking, h.1, h.2]
  · intro h; simp [createBookingRequest, h]
  · intro hu h; simp [rescheduleBooking, hu, h]

/-- Witness for C7: the non-staff user Alice cannot approve the denied
booking; the call fails with the PermissionDenied message. -/
theorem c7_witness :
    approveBooking cStateDenied 0 cAlice false "e1" 1 =
      .error (.permissionDenied "Only staff or admin can approve bookings") :=
  (c7_hard_failures_atomic cStateDenied 0 cAlice cRes 0 10 false "" 0
    cBookingDenied "" "" "e1" 1).1 (by decide)

/-! ### Branch lemmas for approve_booking -/

/-- Conflict-blocked branch of `approve_booking`: conflicts present and no
override.  The call returns false, leaves the booking collection untouched
and appends one APPROVE entry without previous state. -/
theorem approve_blocked_eq (s : SystemState) (i : Nat) (u : User)
    (eid : String) (now : Int) (hu : isStaffOrAdmin u)
    (hc : checkConflicts s (s.bookingAt i) ≠ []) :
    approveBooking s i u false eid now =
      .ok ({ bookings := s.bookings,
             auditLog := s.auditLog ++
               [{ id := eid, timestamp := now, action := ActionType.approve,
                  actor := u, booking := s.bookingAt i,
                  details := "Cannot approve due to conflicts with bookings: " ++
                    pyListRepr ((checkConflicts s (s.bookingAt i)).map fun c => c.id),
                  previousState := none }] }, false) := by
  simp only [approveBooking]
  rw [if_neg (not_not_intro hu), if_pos ⟨hc, trivial⟩]
  rfl

/-- Override branch of `approve_booking`: conflicts present and
`force_override` true.  The target is set to APPROVED and one OVERRIDE
entry with the previous status is appended. -/
theorem approve_override_eq (s : SystemState) (i : Nat) (u : User)
    (eid : String) (now : Int) (hu : isStaffOrAdmin u)
    (hc : checkConflicts s (s.bookingAt i) ≠ []) :
    approveBooking s i u true eid now =
      .ok ({ bookings := s.bookings.set i
               { s.bookingAt i with status := BookingStatus.approved },
             auditLog := s.auditLog ++
               [{ id := eid, timestamp := now, action := ActionType.override,
                  actor := u,
                  booking := { s.bookingAt i with status := BookingStatus.approved },
                  details := "Booking approved with override (conflicts: " ++
                    pyListRepr ((checkConflicts s (s.bookingAt i)).map fun c => c.id) ++ ")",
                  previousState := some [("status", (s.bookingAt i).status.value)] }] },
           true) := by
  simp only [approveBooking]
  rw [if_neg (not_not_intro hu), if_neg (by simp), if_pos ⟨trivial, hc⟩]
  rfl

/-- Conflict-free branch of `approve_booking` (any `force_override`): the
target is set to APPROVED and one APPROVE entry with the previous status
is appended. -/
theorem approve_plain_eq (s : SystemState) (i : Nat) (u : User)
    (eid : String) (now : Int) (hu : isStaffOrAdmin u)
    (hc : checkConflicts s (s.bookingAt i) = []) (fo : Bool) :
    approveBooking s i u fo eid now =
      .ok ({ bookings := s.bookings.set i
               { s.bookingAt i with status := BookingStatus.approved },
             auditLog := s.auditLog ++
               [{ id := eid, timestamp := now, action := ActionType.approve,
                  actor := u,
                  booking := { s.bookingAt i with status := BookingStatus.approved },
                  details := "Booking approved",
                  previousState := some [("status", (s.bookingAt i).status.value)] }] },
           true) := by
  simp only [approveBooking]
  rw [if_neg (not_not_intro hu), if_neg (by simp [hc]), if_neg (by simp [hc])]
  rfl

/-! ### C1 -/

/-- Counterexample for C1: the booking at position 0 of `cStateDenied` has
terminal status DENIED, yet `approve_booking` (authorized, no conflicts,
no override) transitions it to APPROVED and returns true — the code has no
terminal-status guard. -/
theorem c1_counterexample :
    (cStateDenied.bookingAt 0).status = BookingStatus.denied ∧
    (approveBooking cStateDenied 0 cStaff false "e1" 1).toOption.map
        (fun p => ((p.1.bookingAt 0).status, p.2)) =
      some (BookingStatus.approved, true) := by
  constructor
  · rfl
  · rfl

/-- C1 (amended): DENIED, CANCELLED and BUMPED are terminal only with
respect to `deny_booking`, `bump_booking` and `cancel_booking` — none of
those operations ever transitions any booking with a terminal status to
APPROVED.  (`approve_booking` and `reschedule_booking`, by contrast, have
no terminal-status guard and do re-approve such bookings, as the
counterexample shows.) -/
theorem c1_amended_terminal (s : SystemState) (i j : Nat) (u : User)
    (hp : Booking) (reason eid : String) (now : Int)
    (hterm : (s.bookingAt j).status = BookingStatus.denied ∨
             (s.bookingAt j).status = BookingStatus.cancelled ∨
             (s.bookingAt j).status = BookingStatus.bumped) :
    (∀ s2, denyBooking s i u reason eid now = .ok s2 →
        (s2.bookingAt j).status ≠ BookingStatus.approved) ∧
    (∀ s2, bumpBooking s i u hp reason eid now = .ok s2 →
        (s2.bookingAt j).status ≠ BookingStatus.approved) ∧
    (∀ s2, cancelBooking s i u reason eid now = .ok s2 →
        (s2.bookingAt j).status ≠ BookingStatus.approved) := by
  have hterm2 : (s.bookingAt j).status ≠ BookingStatus.approved := by
    rcases hterm with h | h | h <;> simp [h]
  have key : ∀ (nb : Booking) (L : List AuditLogEntry),
      nb.status ≠ BookingStatus.approved →
      ((SystemState.mk (s.bookings.set i nb) L).bookingAt j).status ≠
        BookingStatus.approved := by
    intro nb L hnb
    unfold SystemState.bookingAt
    rcases eq_or_ne i j with rfl | hij
    · by_cases hi : i < s.bookings.length
      · rw [getD_set_self hi]; exact hnb
      · rw [List.set_eq_of_length_le (le_of_not_lt hi)]; exact hterm2
    · rw [getD_set_ne hij]; exact hterm2
  refine ⟨?_, ?_, ?_⟩
  · intro s2 h
    simp only [denyBooking] at h
    split at h
    · exact absurd h (by simp)
    · injection h with h2
      subst h2
      exact key _ _ (by simp)
  · intro s2 h
    simp only [bumpBooking] at h
    split at h
    · exact absurd h (by simp)
    · injection h with h2
      subst h2
      exact key _ _ (by simp)
  · intro s2 h
    simp only [cancelBooking] at h
    split at h
    · exact absurd h (by simp)
    · injection h with h2
      subst h2
      exact key _ _ (by simp)

/-- The state produced by denying the (already denied) booking of
`cStateDenied`. -/
def cDenyResult : SystemState :=
  (denyBooking cStateDenied 0 cStaff "r" "e1" 1).toOption.getD default

/-- Witness for the amended C1: denying the denied booking leaves it
non-APPROVED. -/
theorem c1_witness : (cDenyResult.bookingAt 0).status ≠ BookingStatus.approved :=
  (c1_amended_terminal cStateDenied 0 0 cStaff cBookingDenied "r" "e1" 1
    (Or.inl rfl)).1 cDenyResult rfl

/-! ### C4 -/

/-- C4: approving a booking that has at least one APPROVED overlapping
conflict, with `force_override = false`, returns false, changes no booking
field (the collection is exactly the pre-call collection) and appends
exactly one APPROVE audit entry with no previous state whose details name
the blocking conflict ids. -/
theorem c4_approve_conflict_blocked (s : SystemState) (i : Nat) (u : User)
    (eid : String) (now : Int) (hu : isStaffOrAdmin u)
    (hc : checkConflicts s (s.bookingAt i) ≠ []) :
    approveBooking s i u false eid now =
      .ok ({ bookings := s.bookings,
             auditLog := s.auditLog ++
               [{ id := eid, timestamp := now, action := ActionType.approve,
                  actor := u, booking := s.bookingAt i,
                  details := "Cannot approve due to conflicts with bookings: " ++
                    pyListRepr ((checkConflicts s (s.bookingAt i)).map fun c => c.id),
                  previousState := none }] }, false) :=
  approve_blocked_eq s i u eid now hu hc

/-- Witness for C4 at a concrete conflicted state. -/
theorem c4_witness :
    approveBooking cOverlapState 0 cStaff false "e1" 1 =
      .ok ({ bookings := cOverlapState.bookings,
             auditLog := cOverlapState.auditLog ++
               [{ id := "e1", timestamp := 1, action := ActionType.approve,
                  actor := cStaff, booking := cOverlapState.bookingAt 0,
                  details := "Cannot approve due to conflicts with bookings: " ++
                    pyListRepr ((checkConflicts cOverlapState
                      (cOverlapState.bookingAt 0)).map fun c => c.id),
                  previousState := none }] }, false) :=
  c4_approve_conflict_blocked cOverlapState 0 cStaff "e1" 1 (by decide) (by decide)

/-! ### C5 -/

/-- C5: with conflicts present, `approve_booking` under `force_override =
true` returns true, sets the booking APPROVED and appends exactly one
OVERRIDE (not APPROVE) entry capturing the prior status in previous_state;
with no conflicts the appended entry is an APPROVE entry (for either value
of `force_override`). -/
theorem c5_approve_override_entry (s : SystemState) (i : Nat) (u : User)
    (eid : String) (now : Int) (hu : isStaffOrAdmin u) :
    (checkConflicts s (s.bookingAt i) ≠ [] →
      approveBooking s i u true eid now =
        .ok ({ bookings := s.bookings.set i
                 { s.bookingAt i with status := BookingStatus.approved },
               auditLog := s.auditLog ++
                 [{ id := eid, timestamp := now, action := ActionType.override,
                    actor := u,
                    booking := { s.bookingAt i with status := BookingStatus.approved },
                    details := "Booking approved with override (conflicts: " ++
                      pyListRepr ((checkConflicts s (s.bookingAt i)).map fun c => c.id) ++ ")",
                    previousState := some [("status", (s.bookingAt i).status.value)] }] },
             true)) ∧
    (checkConflicts s (s.bookingAt i) = [] → ∀ fo : Bool,
      approveBooking s i u fo eid now =
        .ok ({ bookings := s.bookings.set i
                 { s.bookingAt i with status := BookingStatus.approved },
               auditLog := s.auditLog ++
                 [{ id := eid, timestamp := now, action := ActionType.approve,
                    actor := u,
                    booking := { s.bookingAt i with status := BookingStatus.approved },
                    details := "Booking approved",
                    previousState := some [("status", (s.bookingAt i).status.value)] }] },
             true)) :=
  ⟨fun hc => approve_override_eq s i u eid now hu hc,
   fun hc fo => approve_plain_eq s i u eid now hu hc fo⟩

/-- Witness for C5: overriding the conflicted pending booking of
`cOverlapState` yields an OVERRIDE entry and an APPROVED booking. -/
theorem c5_witness :
    approveBooking cOverlapState 0 cStaff true "e1" 1 =
      .ok ({ bookings := cOverlapState.bookings.set 0
               { cOverlapState.bookingAt 0 with status := BookingStatus.approved },
             auditLog := cOverlapState.auditLog ++
               [{ id := "e1", timestamp := 1, action := ActionType.override,
                  actor := cStaff,
                  booking := { cOverlapState.bookingAt 0 with
                                 status := BookingStatus.approved },
                  details := "Booking approved with override (conflicts: " ++
                    pyListRepr ((checkConflicts cOverlapState
                      (cOverlapState.bookingAt 0)).map fun c => c.id) ++ ")",
                  previousState := some
                    [("status", (cOverlapState.bookingAt 0).status.value)] }] },
           true) :=
  (c5_approve_override_entry cOverlapState 0 cStaff "e1" 1 (by decide)).1 (by decide)

/-! ### C8 -/

/-- Counterexample for C8: the denied booking of `cStateDenied` has zero
APPROVED overlapping bookings and an authorized approver, yet the single
APPROVE entry produced carries previous_state status "denied", not
"pending" — the snapshot records the actual prior status. -/
theorem c8_counterexample :
    checkConflicts cStateDenied (cStateDenied.bookingAt 0) = [] ∧
    isStaffOrAdmin cStaff ∧
    (approveBooking cStateDenied 0 cStaff false "e1" 1).toOption.map
        (fun p => (p.2, p.1.auditLog.map fun e => (e.action, e.previousState))) =
      some (true, [(ActionType.approve, some [("status", "denied")])]) := by
  refine ⟨rfl, by decide, rfl⟩

/-- C8 (amended): for every PENDING booking with zero APPROVED overlapping
bookings, `approve_booking` by an authorized approver returns true and
appends exactly one APPROVE entry whose previous_state status equals
"pending". -/
theorem c8_amended_approve_pending (s : SystemState) (i : Nat) (u : User)
    (fo : Bool) (eid : String) (now : Int) (hu : isStaffOrAdmin u)
    (hpend : (s.bookingAt i).status = BookingStatus.pending)
    (hc : checkConflicts s (s.bookingAt i) = []) :
    approveBooking s i u fo eid now =
      .ok ({ bookings := s.bookings.set i
               { s.bookingAt i with status := BookingStatus.approved },
             auditLog := s.auditLog ++
               [{ id := eid, timestamp := now, action := ActionType.approve,
                  actor := u,
                  booking := { s.bookingAt i with status := BookingStatus.approved },
                  details := "Booking approved",
                  previousState := some [("status", "pending")] }] }, true) := by
  rw [approve_plain_eq s i u eid now hu hc fo, hpend]
  rfl

/-- Witness for the amended C8 at the concrete pending booking. -/
theorem c8_witness :
    approveBooking cStatePending 0 cStaff false "e1" 1 =
      .ok ({ bookings := cStatePending.bookings.set 0
               { cStatePending.bookingAt 0 with status := BookingStatus.approved },
             auditLog := cStatePending.auditLog ++
               [{ id := "e1", timestamp := 1, action := ActionType.approve,
                  actor := cStaff,
                  booking := { cStatePending.bookingAt 0 with
                                 status := BookingStatus.approved },
                  details := "Booking approved",
                  previousState := some [("status", "pending")] }] }, true) :=
  c8_amended_approve_pending cStatePending 0 cStaff false "e1" 1
    (by decide) rfl rfl

/-! ### Branch lemmas for reschedule_booking -/

/-- The candidate of a reschedule of the booking at position `i` to the
interval [ns, ne): the target booking with the proposed new times (the
speculative in-place update of `reschedule_booking`). -/
def reschedCandidate (s : SystemState) (i : Nat) (ns ne : Int) : Booking :=
  { s.bookingAt i with startTime := ns, endTime := ne }

/-- The state during the speculative window of a reschedule: the target
temporarily carries the proposed new times. -/
def reschedTempState (s : SystemState) (i : Nat) (ns ne : Int) : SystemState :=
  { s with bookings := s.bookings.set i (reschedCandidate s i ns ne) }

/-- The conflicts `reschedule_booking` detects against the proposed new
interval. -/
def reschedConflicts (s : SystemState) (i : Nat) (ns ne : Int) : List Booking :=
  checkConflicts (reschedTempState s i ns ne) (reschedCandidate s i ns ne)

/-- Conflict-blocked branch of `reschedule_booking`: the speculative times
are reverted, the collection is exactly the pre-call collection, one
RESCHEDULE entry without previous state is appended, and false is
returned. -/
theorem reschedule_blocked_eq (s : SystemState) (i : Nat) (u : User)
    (ns ne : Int) (eid : String) (now : Int) (hu : isStaffOrAdmin u)
    (hiv : ns < ne) (hc : reschedConflicts s i ns ne ≠ []) :
    rescheduleBooking s i u ns ne false eid now =
      .ok ({ bookings := s.bookings,
             auditLog := s.auditLog ++
               [{ id := eid, timestamp := now, action := ActionType.reschedule,
                  actor := u, booking := s.bookingAt i,
                  details := "Cannot reschedule due to conflicts with bookings: " ++
                    pyListRepr ((reschedConflicts s i ns ne).map fun c => c.id),
                  previousState := none }] }, false) := by
  have hset : (s.bookings.set i (reschedCandidate s i ns ne)).set i
      (s.bookingAt i) = s.bookings := by
    rw [List.set_set]
    exact set_getD_self s.bookings i default
  simp only [reschedConflicts, reschedTempState, reschedCandidate] at hc ⊢
  simp only [rescheduleBooking]
  rw [if_neg (not_not_intro hu), if_neg (not_le.mpr hiv), if_pos ⟨hc, trivial⟩]
  simp only [reschedCandidate] at hset
  rw [hset]
  rfl

/-- Successful branch of `reschedule_booking` (no blocking conflict, or
`force_override`): the booking keeps the new times, its status is forced
to APPROVED whatever it was, and one RESCHEDULE entry carrying the
previous start time, end time and status is appended. -/
theorem reschedule_success_eq (s : SystemState) (i : Nat) (u : User)
    (ns ne : Int) (fo : Bool) (eid : String) (now : Int)
    (hu : isStaffOrAdmin u) (hiv : ns < ne)
    (h : reschedConflicts s i ns ne = [] ∨ fo = true) :
    rescheduleBooking s i u ns ne fo eid now =
      .ok ({ bookings := s.bookings.set i
               { reschedCandidate s i ns ne with status := BookingStatus.approved },
             auditLog := s.auditLog ++
               [{ id := eid, timestamp := now, action := ActionType.reschedule,
                  actor := u,
                  booking := { reschedCandidate s i ns ne with
                                 status := BookingStatus.approved },
                  details :=
                    (if fo = true ∧ reschedConflicts s i ns ne ≠ [] then
                       "Booking rescheduled from " ++ timeStr (s.bookingAt i).startTime ++
                         " to " ++ timeStr ns ++ " (overriding conflicts: " ++
                         pyListRepr ((reschedConflicts s i ns ne).map fun c => c.id) ++ ")"
                     else
                       "Booking rescheduled from " ++ timeStr (s.bookingAt i).startTime ++
                         " to " ++ timeStr ns),
                  previousState := some
                    [("start_time", timeStr (s.bookingAt i).startTime),
                     ("end_time", timeStr (s.bookingAt i).endTime),
                     ("status", (s.bookingAt i).status.value)] }] }, true) := by
  simp only [reschedConflicts, reschedTempState, reschedCandidate] at h ⊢
  simp only [rescheduleBooking]
  rw [if_neg (not_not_intro hu), if_neg (not_le.mpr hiv),
    if_neg (by rcases h with h | h <;> simp [h]), List.set_set]
  rfl

/-! ### C3 -/

/-- C3: for every authorized reschedule with a valid new interval, either
conflicts on the new interval block the call (no override): it returns
false with the whole booking collection exactly as before the call (times
and status unchanged, no partial effect) and one RESCHEDULE entry without
previous state appended; or it succeeds: it returns true, the booking
keeps the new times, its status is forced to APPROVED regardless of its
prior status, and one RESCHEDULE entry with the previous
start time / end time / status snapshot is appended. -/
theorem c3_reschedule_correct (s : SystemState) (i : Nat) (u : User)
    (ns ne : Int) (fo : Bool) (eid : String) (now : Int)
    (hu : isStaffOrAdmin u) (hiv : ns < ne) :
    (reschedConflicts s i ns ne ≠ [] ∧ fo = false →
      rescheduleBooking s i u ns ne fo eid now =
        .ok ({ bookings := s.bookings,
               auditLog := s.auditLog ++
                 [{ id := eid, timestamp := now, action := ActionType.reschedule,
                    actor := u, booking := s.bookingAt i,
                    details := "Cannot reschedule due to conflicts with bookings: " ++
                      pyListRepr ((reschedConflicts s i ns ne).map fun c => c.id),
                    previousState := none }] }, false)) ∧
    (reschedConflicts s i ns ne = [] ∨ fo = true →
      rescheduleBooking s i u ns ne fo eid now =
        .ok ({ bookings := s.bookings.set i
                 { reschedCandidate s i ns ne with status := BookingStatus.approved },
               auditLog := s.auditLog ++
                 [{ id := eid, timestamp := now, action := ActionType.reschedule,
                    actor := u,
                    booking := { reschedCandidate s i ns ne with
                                   status := BookingStatus.approved },
                    details :=
                      (if fo = true ∧ reschedConflicts s i ns ne ≠ [] then
                         "Booking rescheduled from " ++ timeStr (s.bookingAt i).startTime ++
                           " to " ++ timeStr ns ++ " (overriding conflicts: " ++
                           pyListRepr ((reschedConflicts s i ns ne).map fun c => c.id) ++ ")"
                       else
                         "Booking rescheduled from " ++ timeStr (s.bookingAt i).startTime ++
                           " to " ++ timeStr ns),
                    previousState := some
                      [("start_time", timeStr (s.bookingAt i).startTime),
                       ("end_time", timeStr (s.bookingAt i).endTime),
                       ("status", (s.bookingAt i).status.value)] }] }, true)) := by
  constructor
  · rintro ⟨hc, rfl⟩
    exact reschedule_blocked_eq s i u ns ne eid now hu hiv hc
  · intro h
    exact reschedule_success_eq s i u ns ne fo eid now hu hiv h

/-- Witness for C3: rescheduling the pending booking of `cStatePending`
to the conflict-free interval [20, 30) succeeds, re-approves it and logs
the previous snapshot. -/
theorem c3_witness :
    rescheduleBooking cStatePending 0 cStaff 20 30 false "e1" 1 =
      .ok ({ bookings := cStatePending.bookings.set 0
               { reschedCandidate cStatePending 0 20 30 with
                   status := BookingStatus.approved },
             auditLog := cStatePending.auditLog ++
               [{ id := "e1", timestamp := 1, action := ActionType.reschedule,
                  actor := cStaff,
                  booking := { reschedCandidate cStatePending 0 20 30 with
                                 status := BookingStatus.approved },
                  details :=
                    (if (false = true) ∧ reschedConflicts cStatePending 0 20 30 ≠ [] then
                       "Booking rescheduled from " ++
                         timeStr (cStatePending.bookingAt 0).startTime ++
                         " to " ++ timeStr 20 ++ " (overriding conflicts: " ++
                         pyListRepr ((reschedConflicts cStatePending 0 20 30).map
                           fun c => c.id) ++ ")"
                     else
                       "Booking rescheduled from " ++
                         timeStr (cStatePending.bookingAt 0).startTime ++
                         " to " ++ timeStr 20),
                  previousState := some
                    [("start_time", timeStr (cStatePending.bookingAt 0).startTime),
                     ("end_time", timeStr (cStatePending.bookingAt 0).endTime),
                     ("status", (cStatePending.bookingAt 0).status.value)] }] }, true) :=
  (c3_reschedule_correct cStatePending 0 cStaff 20 30 false "e1" 1
    (by decide) (by decide)).2 (Or.inl rfl)

/-! ### C2 -/

/-- Collapsing the speculative write and its revert: writing back the
value read at a position after any intermediate write at that position
restores the original list. -/
theorem set_set_getD (l : List Booking) (i : Nat) (x : Booking) :
    (l.set i x).set i (l.getD i default) = l := by
  rw [List.set_set]
  exact set_getD_self l i default

/-- C2: every workflow call that returns (rather than raising) appends
exactly one audit entry — the post-call audit log is the pre-call log plus
one entry, so the pre-call log is a prefix of the post-call log and no
existing entry is modified or removed.  For the conflict-blocked
approve/reschedule calls that return false, the appended entry carries no
previous state, its details message names the blocking conflicts, and the
booking collection is untouched.  (Raising calls return an `error`
carrying no state, so they change nothing — see C7.) -/
theorem c2_audit_append_only (s : SystemState) (i : Nat) (res : Resource)
    (u : User) (ns ne : Int) (p : String) (pr : Int) (fo : Bool)
    (hp : Booking) (reason nid eid : String) (now : Int) :
    (∀ s2 b, createBookingRequest s res u ns ne p pr nid eid now = .ok (s2, b) →
        ∃ e, s2.auditLog = s.auditLog ++ [e]) ∧
    (∀ s2 r, approveBooking s i u fo eid now = .ok (s2, r) →
        ∃ e, s2.auditLog = s.auditLog ++ [e] ∧
          (r = false → e.previousState = none ∧
            e.details = "Cannot approve due to conflicts with bookings: " ++
              pyListRepr ((checkConflicts s (s.bookingAt i)).map fun c => c.id) ∧
            s2.bookings = s.bookings)) ∧
    (∀ s2, denyBooking s i u reason eid now = .ok s2 →
        ∃ e, s2.auditLog = s.auditLog ++ [e]) ∧
    (∀ s2 r, rescheduleBooking s i u ns ne fo eid now = .ok (s2, r) →
        ∃ e, s2.auditLog = s.auditLog ++ [e] ∧
          (r = false → e.previousState = none ∧
            e.details = "Cannot reschedule due to conflicts with bookings: " ++
              pyListRepr ((reschedConflicts s i ns ne).map fun c => c.id) ∧
            s2.bookings = s.bookings)) ∧
    (∀ s2, bumpBooking s i u hp reason eid now = .ok s2 →
        ∃ e, s2.auditLog = s.auditLog ++ [e]) ∧
    (∀ s2, cancelBooking s i u reason eid now = .ok s2 →
        ∃ e, s2.auditLog = s.auditLog ++ [e]) := by
  refine ⟨?_, ?_, ?_, ?_, ?_, ?_⟩
  · intro s2 b h
    simp only [createBookingRequest] at h
    split at h
    · exact absurd h (by simp)
    · injection h with h1
      injection h1 with h2 h3
      subst h2
      exact ⟨_, rfl⟩
  · intro s2 r h
    simp only [approveBooking] at h
    split at h
    · exact absurd h (by simp)
    · split at h
      · injection h with h1
        injection h1 with h2 h3
        subst h2; subst h3
        exact ⟨_, rfl, fun _ => ⟨rfl, rfl, rfl⟩⟩
      · split at h
        · injection h with h1
          injection h1 with h2 h3
          subst h2; subst h3
          exact ⟨_, rfl, fun hr => absurd hr (by simp)⟩
        · injection h with h1
          injection h1 with h2 h3
          subst h2; subst h3
          exact ⟨_, rfl, fun hr => absurd hr (by simp)⟩
  · intro s2 h
    simp only [denyBooking] at h
    split at h
    · exact absurd h (by simp)
    · injection h with h1
      subst h1
      exact ⟨_, rfl⟩
  · intro s2 r h
    simp only [rescheduleBooking] at h
    split at h
    · exact absurd h (by simp)
    · split at h
      · exact absurd h (by simp)
      · split at h
        · injection h with h1
          injection h1 with h2 h3
          subst h2; subst h3
          refine ⟨_, rfl, fun _ => ⟨rfl, ?_, ?_⟩⟩
          · simp only [reschedConflicts, reschedTempState, reschedCandidate]
          · exact set_set_getD s.bookings i _
        · injection h with h1
          injection h1 with h2 h3
          subst h2; subst h3
          exact ⟨_, rfl, fun hr => absurd hr (by simp)⟩
  · intro s2 h
    simp only [bumpBooking] at h
    split at h
    · exact absurd h (by simp)
    · injection h with h1
      subst h1
      exact ⟨_, rfl⟩
  · intro s2 h
    simp only [cancelBooking] at h
    split at h
    · exact absurd h (by simp)
    · injection h with h1
      subst h1
      exact ⟨_, rfl⟩

/-- The pair produced by a concrete successful booking creation. -/
def c2CreateResult : SystemState × Booking :=
  (createBookingRequest cStatePending cRes cAlice 50 60 "practice" 0
    "b9" "e9" 5).toOption.getD default

/-- Witness for C2: the concrete creation appends exactly one entry. -/
theorem c2_witness :
    ∃ e, c2CreateResult.1.auditLog = cStatePending.auditLog ++ [e] :=
  (c2_audit_append_only cStatePending 0 cRes cAlice 50 60 "practice" 0 false
    cPend "" "b9" "e9" 5).1 c2CreateResult.1 c2CreateResult.2 rfl

/-! ### C10 -/

/-- The state produced by force-approving the conflicted pending booking
of `cOverlapState`. -/
def cOverrideResult : SystemState :=
  ((approveBooking cOverlapState 0 cStaff true "e2" 2).toOption.getD
    default).1

/-- C10: `approve_booking` mutates at most the status field of the target
booking: every other booking of the collection is completely unchanged,
and the target itself is either unchanged or equals its old value with
status replaced by APPROVED.  In particular (last conjunct) a concrete
override leaves the conflicting APPROVED booking intact, so the collection
then holds two APPROVED overlapping bookings on the same resource. -/
theorem c10_approve_frame (s : SystemState) (i : Nat) (u : User) (fo : Bool)
    (eid : String) (now : Int) (s2 : SystemState) (r : Bool)
    (h : approveBooking s i u fo eid now = .ok (s2, r)) :
    (∀ j, j ≠ i → s2.bookingAt j = s.bookingAt j) ∧
    (s2.bookingAt i = s.bookingAt i ∨
      s2.bookingAt i = { s.bookingAt i with status := BookingStatus.approved }) ∧
    (approveBooking cOverlapState 0 cStaff true "e2" 2 =
        .ok (cOverrideResult, true) ∧
      (cOverrideResult.bookingAt 0).status = BookingStatus.approved ∧
      (cOverrideResult.bookingAt 1).status = BookingStatus.approved ∧
      (cOverrideResult.bookingAt 0).overlapsWith (cOverrideResult.bookingAt 1)) := by
  have demo : approveBooking cOverlapState 0 cStaff true "e2" 2 =
        .ok (cOverrideResult, true) ∧
      (cOverrideResult.bookingAt 0).status = BookingStatus.approved ∧
      (cOverrideResult.bookingAt 1).status = BookingStatus.approved ∧
      (cOverrideResult.bookingAt 0).overlapsWith (cOverrideResult.bookingAt 1) :=
    ⟨rfl, rfl, rfl, by decide⟩
  simp only [approveBooking] at h
  split at h
  · exact absurd h (by simp)
  · split at h
    · injection h with h1
      injection h1 with h2 h3
      subst h2
      exact ⟨fun j _ => rfl, Or.inl rfl, demo⟩
    · have key : ∀ (L : List AuditLogEntry),
          (∀ j, j ≠ i →
            ((SystemState.mk
              (s.bookings.set i { s.bookingAt i with status := BookingStatus.approved })
              L).bookingAt j) = s.bookingAt j) ∧
          (((SystemState.mk
              (s.bookings.set i { s.bookingAt i with status := BookingStatus.approved })
              L).bookingAt i) = s.bookingAt i ∨
            ((SystemState.mk
              (s.bookings.set i { s.bookingAt i with status := BookingStatus.approved })
              L).bookingAt i) =
              { s.bookingAt i with status := BookingStatus.approved }) := by
        intro L
        constructor
        · intro j hj
          unfold SystemState.bookingAt
          exact getD_set_ne (fun hh => hj hh.symm) _ _
        · by_cases hi : i < s.bookings.length
          · right
            unfold SystemState.bookingAt
            rw [getD_set_self hi]
          · left
            unfold SystemState.bookingAt
            rw [List.set_eq_of_length_le (le_of_not_lt hi)]
      split at h
      · injection h with h1
        injection h1 with h2 h3
        subst h2
        exact ⟨(key _).1, (key _).2, demo⟩
      · injection h with h1
        injection h1 with h2 h3
        subst h2
        exact ⟨(key _).1, (key _).2, demo⟩

/-- Witness for C10 at a concrete successful plain approval. -/
theorem c10_witness :
    cOverrideResult.bookingAt 0 = cOverlapState.bookingAt 0 ∨
      cOverrideResult.bookingAt 0 =
        { cOverlapState.bookingAt 0 with status := BookingStatus.approved } :=
  (c10_approve_frame cOverlapState 0 cStaff true "e2" 2 cOverrideResult true
    rfl).2.1

/-! ### C9 -/

/-- Specification-side filter for the resource query, transcribed from the
spec's words: resource identity, the loose inclusive window (booking end ≥
start_date and booking start ≤ end_date, each bound optional — the
"touches the window" filter, broader than the strict conflict overlap) and
exact status match. -/
def specResourceFilter (resourceId : String) (startDate endDate : Option Int)
    (status : Option BookingStatus) (b : Booking) : Bool :=
  decide (b.resource.id = resourceId) &&
  (startDate.all fun d => decide (d ≤ b.endTime)) &&
  (endDate.all fun d => decide (b.startTime ≤ d)) &&
  (status.all fun st => decide (b.status = st))

/-- Inserting an element with `orderedInsert` does not change which
elements carry a given start time, nor their relative order: the
insertion point is before every element with the same key that was
already present only when the inserted element itself precedes them. -/
theorem filter_key_orderedInsert (k : Int) (b : Booking) (l : List Booking) :
    (List.orderedInsert bookingStartLE b l).filter
        (fun x => decide (x.startTime = k)) =
      (b :: l).filter (fun x => decide (x.startTime = k)) := by
  induction l with
  | nil => rfl
  | cons c t ih =>
    rw [List.orderedInsert]
    by_cases hbc : bookingStartLE b c
    · rw [if_pos hbc]
    · rw [if_neg hbc]
      have hlt : c.startTime < b.startTime := by
        unfold bookingStartLE at hbc
        omega
      by_cases hpb : b.startTime = k
      · have hpc : c.startTime ≠ k := by omega
        simp [List.filter_cons, ih, hpb, hpc]
      · simp [List.filter_cons, ih, hpb]

/-- The insertion sort by start time is stable: it preserves the relative
order (and multiplicity) of the elements holding any fixed start time. -/
theorem filter_key_insertionSort (k : Int) (l : List Booking) :
    (List.insertionSort bookingStartLE l).filter
        (fun x => decide (x.startTime = k)) =
      l.filter (fun x => decide (x.startTime = k)) := by
  induction l with
  | nil => rfl
  | cons b t ih =>
    rw [List.insertionSort, filter_key_orderedInsert]
    simp [List.filter_cons, ih]

/-- The chained optional filters of `get_bookings_by_resource` coincide
with one pass of the specification-side filter. -/
theorem getBookingsByResource_eq_sort_filter (s : SystemState)
    (resourceId : String) (startDate endDate : Option Int)
    (status : Option BookingStatus) :
    getBookingsByResource s resourceId startDate endDate status =
      List.insertionSort bookingStartLE
        (s.bookings.filter (specResourceFilter resourceId startDate endDate status)) := by
  unfold getBookingsByResource
  cases startDate <;> cases endDate <;> cases status <;>
    · apply congrArg
      simp only [List.filter_filter]
      apply List.filter_congr
      intro b _
      simp [specResourceFilter, Bool.and_comm, Bool.and_left_comm, Bool.and_assoc]

/-- C9: `get_bookings_by_resource` returns exactly the bookings passing
the resource / loose-window / status filter — the result is a permutation
of the filtered collection — sorted ascending by start time, and the sort
is stable: for every start time the sub-sequence of bookings holding it is
exactly the filtered collection's sub-sequence in original insertion
order, whatever the input ordering was. -/
theorem c9_resource_query_sorted_stable (s : SystemState)
    (resourceId : String) (startDate endDate : Option Int)
    (status : Option BookingStatus) :
    List.Sorted bookingStartLE
      (getBookingsByResource s resourceId startDate endDate status) ∧
    List.Perm (getBookingsByResource s resourceId startDate endDate status)
      (s.bookings.filter (specResourceFilter resourceId startDate endDate status)) ∧
    ∀ k : Int,
      (getBookingsByResource s resourceId startDate endDate status).filter
          (fun b => decide (b.startTime = k)) =
        (s.bookings.filter (specResourceFilter resourceId startDate endDate status)).filter
          (fun b => decide (b.startTime = k)) := by
  have hchain := getBookingsByResource_eq_sort_filter s resourceId startDate
    endDate status
  refine ⟨?_, ?_, ?_⟩
  · rw [hchain]
    exact List.sorted_insertionSort _ _
  · rw [hchain]
    exact List.perm_insertionSort _ _
  · intro k
    rw [hchain, filter_key_insertionSort]

end RangeBooking
